import Mathlib

/-!
Verification of the jira-refinement-agent core against its design notes.

The Python sources are shallowly embedded:

* `app/llm/client.py` — `ToolCall`, `LLMToolResponse`, `call_llm_with_tools`
  (the transport to the chat-completion API is abstracted into an oracle
  `Env.llm` that yields the raw assistant message for a given conversation;
  the JSON decoding of an argument payload is opaque to every property we
  state, so a payload is carried as its raw string).
* `app/services/refinement_service.py` — `MAX_AGENT_ITERATIONS`,
  `run_agent_loop`, `_assistant_message_to_dict`.  The `for iteration in
  range(MAX_AGENT_ITERATIONS)` loop becomes fuel recursion; the loop's
  observable behaviour (returned string, number of chat-gateway calls, the
  tool invocations in order, the final message log) is collected in
  `RunResult`.
* `app/llm/prompts.py` — `build_agent_prompt`, `_domain_context` and the two
  agent-mode system templates (`f`-string interpolation becomes `++`;
  Python's `x or d` on optional strings becomes `pyOr`).
* `app/models/domain.py` — `DomainConfig` with its pydantic defaults.
* `app/jira/mcp_client.py` — `get_tools_as_openai_functions`, `call_tool`,
  `_extract_text`; the MCP session is `Option MCPSession` (`None` while the
  client is not connected), a raised `RuntimeError` is `Except.error`.
-/

namespace RefinementAgent

/-- Python's `x or d` for an optional string: `None` and `""` are falsy. -/
def pyOr (s : Option String) (d : String) : String :=
  match s with
  | none => d
  | some v => if v.isEmpty then d else v

/-! ### Raw chat-gateway data (`openai` message shapes used by `client.py`) -/

/-- The `function` part of one raw tool call: `tc.function.name` and the
JSON-encoded `tc.function.arguments` exactly as the gateway sent it. -/
structure ToolFunction where
  name : String
  arguments : String
deriving DecidableEq, Repr

/-- One raw tool call of an assistant message (`message.tool_calls[i]`). -/
structure RawToolCall where
  id : String
  function : ToolFunction
deriving DecidableEq, Repr

/-- The raw assistant message returned by the chat gateway:
`message.content` and `message.tool_calls` are both optional. -/
structure AssistantMessage where
  content : Option String
  tool_calls : Option (List RawToolCall)
deriving DecidableEq, Repr

/-- One entry of the `tool_calls` list rebuilt by
`_assistant_message_to_dict` (`{"id": …, "type": "function",
"function": {"name": …, "arguments": …}}`, flattened). -/
structure ToolCallDict where
  id : String
  type : String
  function_name : String
  function_arguments : String
deriving DecidableEq, Repr

/-- One entry of the conversation's message list, by `role`. -/
inductive Message where
  | system (content : String)
  | user (content : String)
  | assistant (content : String) (tool_calls : Option (List ToolCallDict))
  | tool (tool_call_id : String) (content : String)
deriving DecidableEq, Repr

/-- `client.py` `ToolCall`: a parsed tool call requested by the LLM.  The
decoded `arguments` dict is carried as the raw payload string (no stated
property looks inside it). -/
structure ToolCall where
  id : String
  name : String
  arguments : String
deriving DecidableEq, Repr

/-- `client.py` `LLMToolResponse`. -/
structure LLMToolResponse where
  tool_calls : Option (List ToolCall)
  final_text : Option String
  assistant_message : AssistantMessage
deriving DecidableEq, Repr

/-- `LLMToolResponse.wants_tool_calls`: Python `bool(self.tool_calls)`. -/
def LLMToolResponse.wants_tool_calls (r : LLMToolResponse) : Bool :=
  match r.tool_calls with
  | none => false
  | some l => !l.isEmpty

/-- `call_llm_with_tools`, applied to the raw assistant message the
chat gateway answered with: `if message.tool_calls:` build the parsed
`ToolCall` list, else a final-text response with `message.content or ""`. -/
def call_llm_with_tools (message : AssistantMessage) : LLMToolResponse :=
  match message.tool_calls with
  | some tcs =>
      if tcs.isEmpty then
        { tool_calls := none, final_text := some (pyOr message.content ""),
          assistant_message := message }
      else
        { tool_calls := some (tcs.map fun tc =>
            { id := tc.id, name := tc.function.name, arguments := tc.function.arguments }),
          final_text := none, assistant_message := message }
  | none =>
      { tool_calls := none, final_text := some (pyOr message.content ""),
        assistant_message := message }

/-- `_assistant_message_to_dict` of `refinement_service.py`: content is
`message.content or ""`; the `tool_calls` key is added only when
`message.tool_calls` is truthy, each entry rebuilt field by field. -/
def assistant_message_to_dict (message : AssistantMessage) : Message :=
  Message.assistant (pyOr message.content "")
    (match message.tool_calls with
     | some l =>
         if l.isEmpty then none
         else some (l.map fun tc =>
           { id := tc.id, type := "function",
             function_name := tc.function.name,
             function_arguments := tc.function.arguments })
     | none => none)

/-! ### Domain configuration (`app/models/domain.py`) -/

/-- `Persona` of `domain.py`. -/
structure Persona where
  name : String
  description : String := ""
deriving DecidableEq, Repr

/-- `RepoModule` of `domain.py`. -/
structure RepoModule where
  name : String
  path : String := ""
  description : String := ""
deriving DecidableEq, Repr

/-- `DomainConfig` of `domain.py`, defaults as in the pydantic model
(`standards` is a dict with insertion order, kept as an association list). -/
structure DomainConfig where
  project_name : String := "My Product"
  repo_url : String := ""
  tech_stack : List String := []
  architecture_notes : String := ""
  key_modules : List RepoModule := []
  ticket_structure : List String :=
    ["Background", "Problem / Current behavior", "Desired behavior", "Scope",
     "Out of scope", "Technical notes (high level)", "Risks & impact",
     "Test plan / QA hints", "Acceptance criteria"]
  user_personas : List Persona := []
  platforms : List String := []
  standards : List (String × String) := []
  acceptance_criteria_style : String := "bullet"
deriving DecidableEq, Repr

/-! ### Prompt builder (`app/llm/prompts.py`) -/

/-- `AGENT_SYSTEM_FIRST_PASS` of `prompts.py` (backslash line continuations
of the Python literal already joined). -/
def AGENT_SYSTEM_FIRST_PASS : String :=
  "You are a senior product analyst AI assistant that helps product managers refine rough Jira tickets into sprint-ready specifications.\n"
  ++ "\n## Your tools\n"
  ++ "You have access to Jira tools (via MCP) to read and write issue data. Use them to gather context and post your refinement output.\n"
  ++ "\n## Your workflow (first_pass mode)\n"
  ++ "1. **Read the issue** — use `jira_get_issue` to fetch the ticket data.\n"
  ++ "2. **Search for similar tickets** — use `jira_search` with a JQL query    to find related or similar issues in the same project for style reference.\n"
  ++ "3. **Analyze** — identify what information is missing or ambiguous.\n"
  ++ "4. **Post your analysis** — use `jira_add_comment` to post a comment on the    issue with:\n"
  ++ "   - 3–7 focused, numbered clarifying questions for the PM\n"
  ++ "   - A draft specification following the required ticket structure\n"
  ++ "   - Proposed acceptance criteria\n"
  ++ "   - (Optional) suggested subtasks if the ticket is large\n"
  ++ "5. **Update refinement state** — if a custom field for refinement state exists,    use `jira_update_issue` to set it to \"WAITING_FOR_PM\".\n"
  ++ "\n## Rules\n"
  ++ "- Keep questions specific and actionable — don't ask vague questions.\n"
  ++ "- The draft spec should be as complete as possible given the information.   Mark uncertain parts with \"[TBD — see question N]\".\n"
  ++ "- Acceptance criteria should be concrete and testable.\n"
  ++ "- Write in clear, professional language.\n"
  ++ "- Format the comment in markdown for readability.\n"
  ++ "\nAfter you have completed ALL steps, respond with a brief summary of what you did.\n"

/-- `AGENT_SYSTEM_FEEDBACK` of `prompts.py`. -/
def AGENT_SYSTEM_FEEDBACK : String :=
  "You are a senior product analyst AI assistant. The PM has answered your clarifying questions and may have requested wording changes.\n"
  ++ "\n## Your tools\n"
  ++ "You have access to Jira tools (via MCP) to read and write issue data.\n"
  ++ "\n## Your workflow (pm_feedback mode)\n"
  ++ "1. **Read the issue** — use `jira_get_issue` to fetch the current ticket and comments.\n"
  ++ "2. **Incorporate PM feedback** — use the PM's comment to refine the specification:\n"
  ++ "   - Remove all \"[TBD]\" placeholders.\n"
  ++ "   - Apply any wording changes the PM requested.\n"
  ++ "   - Produce the final, complete specification.\n"
  ++ "3. **Update the issue description** — use `jira_update_issue` to replace the description    with the final specification including acceptance criteria.\n"
  ++ "4. **Create subtasks** — if the ticket warrants breakdown, use `jira_create_issue` to    create sub-tasks linked to the parent issue.\n"
  ++ "5. **Post a summary comment** — use `jira_add_comment` to post a comment summarizing    what was updated. If anything is still unclear, include follow-up questions.\n"
  ++ "6. **Update refinement state** — use `jira_update_issue` to set the refinement state:    \"COMPLETE\" if done, or \"WAITING_FOR_PM\" if follow-up questions remain.\n"
  ++ "\n## Rules\n"
  ++ "- Be concise but thorough.\n"
  ++ "- Keep the same ticket structure template.\n"
  ++ "- Format all content in markdown.\n"
  ++ "\nAfter you have completed ALL steps, respond with a brief summary of what you did.\n"

/-- `_domain_context` of `prompts.py`: the config-derived context block,
built by conditionally appending each repo-metadata section to `context`
and then the always-present tail sections. -/
def domain_context (config : DomainConfig) : String :=
  let sections := String.intercalate "\n" (config.ticket_structure.map fun s => "  - " ++ s)
  let personas := String.intercalate "\n" (config.user_personas.map fun p =>
    "  - **" ++ p.name ++ "**: " ++ p.description)
  let platforms :=
    if !config.platforms.isEmpty then String.intercalate ", " config.platforms else "N/A"
  let standards := String.intercalate "\n" (config.standards.map fun kv =>
    "  - **" ++ kv.1 ++ "**: " ++ kv.2)
  let context := "\n\n## Project context: " ++ config.project_name ++ "\n"
  let context :=
    if !config.repo_url.isEmpty then
      context ++ "\n### Repository: " ++ config.repo_url ++ "\n"
    else context
  let context :=
    if !config.tech_stack.isEmpty then
      context ++ "\n### Tech stack:\n"
        ++ String.intercalate "\n" (config.tech_stack.map fun t => "  - " ++ t) ++ "\n"
    else context
  let context :=
    if !config.architecture_notes.isEmpty then
      context ++ "\n### Architecture:\n" ++ config.architecture_notes ++ "\n"
    else context
  let context :=
    if !config.key_modules.isEmpty then
      context ++ "\n### Key modules:\n"
        ++ String.intercalate "\n" (config.key_modules.map fun m =>
             "  - **" ++ m.name ++ "** (`" ++ m.path ++ "`): " ++ m.description)
        ++ "\n"
    else context
  context
    ++ "\n### Required ticket structure (use these as markdown headings):\n" ++ sections
    ++ "\n\n### Known user personas:\n"
    ++ (if personas.isEmpty then "  (none defined)" else personas)
    ++ "\n\n### Target platforms: " ++ platforms
    ++ "\n\n### Non-functional standards:\n"
    ++ (if standards.isEmpty then "  (none defined)" else standards)
    ++ "\n\n### Acceptance criteria style: " ++ config.acceptance_criteria_style ++ "\n"

/-- `build_agent_prompt` of `prompts.py`. -/
def build_agent_prompt (issue_key : String) (mode : String)
    (pm_comment : Option String) (domain_config : DomainConfig) : List Message :=
  if mode == "first_pass" then
    [Message.system (AGENT_SYSTEM_FIRST_PASS ++ domain_context domain_config),
     Message.user ("Please refine Jira issue **" ++ issue_key ++ "**.\n\n"
       ++ "Start by reading the issue with the `jira_get_issue` tool, "
       ++ "then follow the workflow described in your instructions.")]
  else
    [Message.system (AGENT_SYSTEM_FEEDBACK ++ domain_context domain_config),
     Message.user ("The PM has replied to the refinement of **" ++ issue_key ++ "**.\n\n"
       ++ "**PM's comment:**\n" ++ pyOr pm_comment "(no comment provided)" ++ "\n\n"
       ++ "Start by reading the issue with `jira_get_issue` to see the "
       ++ "current state, then incorporate the PM's feedback.")]

/-! ### Tool gateway client (`app/jira/mcp_client.py`) -/

/-- A JSON value, enough to carry an MCP tool's `inputSchema` and the
OpenAI `parameters` object. -/
inductive JValue where
  | null
  | bool (b : Bool)
  | num (n : Int)
  | str (s : String)
  | arr (items : List JValue)
  | obj (fields : List (String × JValue))

/-- An MCP tool description (`mcp.types.Tool`): `description` is optional,
`inputSchema` is a required JSON object (possibly empty). -/
structure Tool where
  name : String
  description : Option String
  inputSchema : List (String × JValue)

/-- The inner `function` object of one OpenAI function definition. -/
structure FunctionDef where
  name : String
  description : String
  parameters : JValue

/-- One entry of the list `get_tools_as_openai_functions` produces. -/
structure OpenAIToolEntry where
  type : String
  function : FunctionDef

/-- The default `parameters` object used when a tool's `inputSchema` is
falsy: `{"type": "object", "properties": {}}`. -/
def default_parameters : JValue :=
  JValue.obj [("type", JValue.str "object"), ("properties", JValue.obj [])]

/-- `MCPJiraClient.get_tools_as_openai_functions`: a `for` loop appending
one entry per cached tool (`tool.description or ""`;
`if tool.inputSchema:` picks the schema, else the default object). -/
def get_tools_as_openai_functions (tools : List Tool) : List OpenAIToolEntry :=
  tools.foldl
    (fun functions tool =>
      functions
        ++ [{ type := "function",
              function :=
                { name := tool.name,
                  description := pyOr tool.description "",
                  parameters :=
                    if !tool.inputSchema.isEmpty then JValue.obj tool.inputSchema
                    else default_parameters } }])
    []

/-- One content item of an MCP `CallToolResult`: a `TextContent` or any
other content type (image, resource, …). -/
inductive MCPContent where
  | text (t : String)
  | other
deriving DecidableEq, Repr

/-- `mcp.types.CallToolResult`: content items plus the gateway's error flag. -/
structure CallToolResult where
  content : List MCPContent
  isError : Bool
deriving DecidableEq, Repr

/-- `_extract_text` of `mcp_client.py`: the text of every `TextContent`
item, joined with newlines. -/
def extract_text (result : CallToolResult) : String :=
  String.intercalate "\n"
    (result.content.filterMap fun c =>
      match c with
      | MCPContent.text t => some t
      | MCPContent.other => none)

/-- The established MCP session: `session.call_tool(name, arguments)`
always answers with a `CallToolResult` (a transport failure would be an
exception of the chat-loop's tool-call `try`, not of this client). -/
structure MCPSession where
  call_tool : String → String → CallToolResult

/-- `MCPJiraClient`: `_session` is `None` until `start()` succeeds. -/
structure MCPJiraClient where
  session : Option MCPSession

/-- `MCPJiraClient.call_tool`: raise when not connected; raise embedding
the tool name and the extracted error text when the gateway flags an
error; otherwise return the extracted text.  A raised `RuntimeError` is
`Except.error` of its message. -/
def MCPJiraClient.call_tool (client : MCPJiraClient) (name : String)
    (arguments : String) : Except String String :=
  match client.session with
  | none => Except.error "MCP client not connected. Call start() first."
  | some s =>
      let result := s.call_tool name arguments
      if result.isError then
        Except.error ("MCP tool '" ++ name ++ "' failed: " ++ extract_text result)
      else
        Except.ok (extract_text result)

/-! ### The agent loop (`app/services/refinement_service.py`) -/

/-- The two gateways the loop talks to, as oracles: `llm conversation` is
the raw assistant message the chat gateway answers with (the cached tool
catalog passed alongside does not influence the loop's control flow and is
absorbed into the oracle); `call_tool name arguments` is the MCP
invocation, `Except.error e` standing for a raised exception with detail
`e`. -/
structure Env where
  llm : List Message → AssistantMessage
  call_tool : String → String → Except String String

/-- The `try`/`except` body of the loop's tool-call execution: the tool's
text on success, `f"Error calling tool '{tool_call.name}': {e}"` when the
invocation raised. -/
def tool_result_content (env : Env) (tc : ToolCall) : String :=
  match env.call_tool tc.name tc.arguments with
  | Except.ok r => r
  | Except.error e => "Error calling tool '" ++ tc.name ++ "': " ++ e

/-- The inner `for tool_call in response.tool_calls` loop: invoke each
request in order, appending its tool-result message before moving to the
next request; also logs each invocation (name, arguments) in order. -/
def exec_tool_calls (env : Env) :
    List ToolCall → List Message → List (String × String) →
      List Message × List (String × String)
  | [], messages, log => (messages, log)
  | tc :: rest, messages, log =>
      exec_tool_calls env rest
        (messages ++ [Message.tool tc.id (tool_result_content env tc)])
        (log ++ [(tc.name, tc.arguments)])

/-- `MAX_AGENT_ITERATIONS` of `refinement_service.py`. -/
def MAX_AGENT_ITERATIONS : Nat := 15

/-- The string `run_agent_loop` returns when the iteration ceiling is hit:
`f"Agent reached maximum iterations ({MAX_AGENT_ITERATIONS}) for {issue_key}."`. -/
def max_iterations_message (issue_key : String) : String :=
  "Agent reached maximum iterations (" ++ toString MAX_AGENT_ITERATIONS
    ++ ") for " ++ issue_key ++ "."

/-- What one run of the loop did: the returned summary string, how many
chat-gateway calls it made, the tool invocations in order, and the final
message log. -/
structure RunResult where
  result : String
  llm_calls : Nat
  tool_invocations : List (String × String)
  messages : List Message
deriving Repr

/-- The body of `for iteration in range(MAX_AGENT_ITERATIONS)` as fuel
recursion: with fuel `0` the `for` is exhausted and the max-iterations
string is returned; otherwise call the chat gateway once, return its final
text if it wants no tool calls, else append the assistant message, execute
the calls and continue. -/
def run_agent_loop_iter (env : Env) (issue_key : String) :
    Nat → List Message → Nat → List (String × String) → RunResult
  | 0, messages, llm_calls, tool_log =>
      { result := max_iterations_message issue_key, llm_calls := llm_calls,
        tool_invocations := tool_log, messages := messages }
  | fuel + 1, messages, llm_calls, tool_log =>
      let response := call_llm_with_tools (env.llm messages)
      if response.wants_tool_calls then
        let step := exec_tool_calls env (response.tool_calls.getD [])
          (messages ++ [assistant_message_to_dict response.assistant_message]) tool_log
        run_agent_loop_iter env issue_key fuel step.1 (llm_calls + 1) step.2
      else
        { result := pyOr response.final_text "", llm_calls := llm_calls + 1,
          tool_invocations := tool_log, messages := messages }

/-- `run_agent_loop`: build the initial prompt and iterate up to
`MAX_AGENT_ITERATIONS` times.  The Python function loads the domain config
itself; here the (already validated) config is a parameter. -/
def run_agent_loop (env : Env) (issue_key : String) (mode : String)
    (pm_comment : Option String) (domain_config : DomainConfig) : RunResult :=
  run_agent_loop_iter env issue_key MAX_AGENT_ITERATIONS
    (build_agent_prompt issue_key mode pm_comment domain_config) 0 []

/-! ### Specification-side notions -/

/-- `pat` occurs verbatim inside `s`. -/
def containsStr (s pat : String) : Prop :=
  ∃ pre post, s = pre ++ pat ++ post

/-- How many entries of a `tool_calls` list carry the given id. -/
def countMatches (tcs : List ToolCallDict) (id : String) : Nat :=
  (tcs.filter fun tc => tc.id == id).length

/-- The message-log invariant of the spec's data model: walking the log
with the `tool_calls` of the most recent assistant message at hand, every
tool-result message's `tool_call_id` matches exactly one `tool_calls[i].id`
of that (immediately preceding) assistant message. -/
def toolIdsOk : List Message → List ToolCallDict → Bool
  | [], _ => true
  | Message.assistant _ tcs :: rest, _ => toolIdsOk rest (tcs.getD [])
  | Message.tool id _ :: rest, current =>
      countMatches current id == 1 && toolIdsOk rest current
  | Message.system _ :: rest, current => toolIdsOk rest current
  | Message.user _ :: rest, current => toolIdsOk rest current

/-- The `tool_calls` of the most recent assistant message of a log,
starting from `current`. -/
def lastAssistantCalls : List Message → List ToolCallDict → List ToolCallDict
  | [], current => current
  | Message.assistant _ tcs :: rest, _ => lastAssistantCalls rest (tcs.getD [])
  | Message.system _ :: rest, current => lastAssistantCalls rest current
  | Message.user _ :: rest, current => lastAssistantCalls rest current
  | Message.tool _ _ :: rest, current => lastAssistantCalls rest current

/-! ### Helper lemmas -/

theorem pyOr_some_empty (x : String) : pyOr (some x) "" = x := by
  simp only [pyOr]
  split
  · next h => exact ((String.isEmpty_iff x).mp h).symm
  · rfl

theorem pyOr_empty_getD (c : Option String) : pyOr c "" = c.getD "" := by
  cases c with
  | none => rfl
  | some v => simpa using pyOr_some_empty v

theorem run_iter_zero (env : Env) (ik : String) (msgs : List Message)
    (n : Nat) (log : List (String × String)) :
    run_agent_loop_iter env ik 0 msgs n log =
      { result := max_iterations_message ik, llm_calls := n,
        tool_invocations := log, messages := msgs } := rfl

theorem run_iter_succ (env : Env) (ik : String) (fuel : Nat)
    (msgs : List Message) (n : Nat) (log : List (String × String)) :
    run_agent_loop_iter env ik (fuel + 1) msgs n log =
      (let response := call_llm_with_tools (env.llm msgs)
       if response.wants_tool_calls then
         let step := exec_tool_calls env (response.tool_calls.getD [])
           (msgs ++ [assistant_message_to_dict response.assistant_message]) log
         run_agent_loop_iter env ik fuel step.1 (n + 1) step.2
       else
         { result := pyOr response.final_text "", llm_calls := n + 1,
           tool_invocations := log, messages := msgs }) := rfl

theorem exec_tool_calls_eq (env : Env) (calls : List ToolCall) :
    ∀ (messages : List Message) (log : List (String × String)),
      exec_tool_calls env calls messages log =
        (messages ++ calls.map (fun tc => Message.tool tc.id (tool_result_content env tc)),
         log ++ calls.map (fun tc => (tc.name, tc.arguments))) := by
  induction calls with
  | nil => intro messages log; simp [exec_tool_calls]
  | cons tc rest ih =>
      intro messages log
      simp [exec_tool_calls, ih]

/-- Under an oracle that always wants tool calls, the loop burns all its
fuel: it makes exactly `fuel` more chat-gateway calls and ends in the
max-iterations terminal state. -/
theorem run_iter_all_tool_calls (env : Env) (ik : String)
    (h : ∀ msgs, (call_llm_with_tools (env.llm msgs)).wants_tool_calls = true) :
    ∀ (fuel : Nat) (msgs : List Message) (n : Nat) (log : List (String × String)),
      (run_agent_loop_iter env ik fuel msgs n log).llm_calls = n + fuel ∧
      (run_agent_loop_iter env ik fuel msgs n log).result = max_iterations_message ik := by
  intro fuel
  induction fuel with
  | zero => intro msgs n log; exact ⟨rfl, rfl⟩
  | succ fuel ih =>
      intro msgs n log
      rw [run_iter_succ]
      simp only [h msgs, if_true]
      obtain ⟨h1, h2⟩ := ih _ (n + 1) _
      refine ⟨?_, h2⟩
      rw [h1]; omega

/-- The loop only appends to the message log. -/
theorem run_iter_mem (env : Env) (ik : String) :
    ∀ (fuel : Nat) (msgs : List Message) (n : Nat) (log : List (String × String))
      (m : Message), m ∈ msgs → m ∈ (run_agent_loop_iter env ik fuel msgs n log).messages := by
  intro fuel
  induction fuel with
  | zero => intro msgs n log m hm; exact hm
  | succ fuel ih =>
      intro msgs n log m hm
      rw [run_iter_succ]
      by_cases hw : (call_llm_with_tools (env.llm msgs)).wants_tool_calls
      · simp only [hw, if_true]
        exact ih _ _ _ m (by
          rw [exec_tool_calls_eq]
          exact List.mem_append_left _ (List.mem_append_left _ hm))
      · simp only [hw, if_false]
        exact hm

/-- The loop makes at least one chat-gateway call whenever it has fuel. -/
theorem run_iter_calls_ge (env : Env) (ik : String) :
    ∀ (fuel : Nat) (msgs : List Message) (n : Nat) (log : List (String × String)),
      n + min fuel 1 ≤ (run_agent_loop_iter env ik fuel msgs n log).llm_calls := by
  intro fuel
  induction fuel with
  | zero => intro msgs n log; simp [run_iter_zero]
  | succ fuel ih =>
      intro msgs n log
      rw [run_iter_succ]
      by_cases hw : (call_llm_with_tools (env.llm msgs)).wants_tool_calls
      · simp only [hw, if_true]
        have := ih (exec_tool_calls env ((call_llm_with_tools (env.llm msgs)).tool_calls.getD [])
          (msgs ++ [assistant_message_to_dict (call_llm_with_tools (env.llm msgs)).assistant_message]) log).1
          (n + 1)
          (exec_tool_calls env ((call_llm_with_tools (env.llm msgs)).tool_calls.getD [])
          (msgs ++ [assistant_message_to_dict (call_llm_with_tools (env.llm msgs)).assistant_message]) log).2
        omega
      · simp only [hw, if_false]
        simp

/-! ### The claims -/

/-- C1.  If the chat gateway requests tool calls on every iteration,
`run_agent_loop` makes exactly 15 (`MAX_AGENT_ITERATIONS`) chat-gateway
calls — never a 16th — and returns a string containing both the ceiling
value `15` and the issue key. -/
theorem agent_loop_stops_at_ceiling (env : Env) (issue_key mode : String)
    (pm_comment : Option String) (config : DomainConfig)
    (h : ∀ msgs, (call_llm_with_tools (env.llm msgs)).wants_tool_calls = true) :
    (run_agent_loop env issue_key mode pm_comment config).llm_calls = 15 ∧
    containsStr (run_agent_loop env issue_key mode pm_comment config).result "15" ∧
    containsStr (run_agent_loop env issue_key mode pm_comment config).result issue_key := by
  obtain ⟨h1, h2⟩ := run_iter_all_tool_calls env issue_key h MAX_AGENT_ITERATIONS
    (build_agent_prompt issue_key mode pm_comment config) 0 []
  have ht : toString MAX_AGENT_ITERATIONS = "15" := by decide
  refine ⟨h1, ?_, ?_⟩
  · rw [show (run_agent_loop env issue_key mode pm_comment config).result
        = max_iterations_message issue_key from h2]
    refine ⟨"Agent reached maximum iterations (", ") for " ++ (issue_key ++ "."), ?_⟩
    simp only [max_iterations_message, ht, String.append_assoc]
  · rw [show (run_agent_loop env issue_key mode pm_comment config).result
        = max_iterations_message issue_key from h2]
    refine ⟨"Agent reached maximum iterations (" ++ (toString MAX_AGENT_ITERATIONS ++ ") for "),
      ".", ?_⟩
    simp only [max_iterations_message, String.append_assoc]

/-- A chat-gateway oracle that always answers with one tool call. -/
def envAllToolCalls : Env :=
  { llm := fun _ =>
      { content := some "working",
        tool_calls := some [{ id := "call-1",
                              function := { name := "jira_get_issue",
                                            arguments := "issue" } }] },
    call_tool := fun _ _ => Except.ok "ok" }

theorem agent_loop_stops_at_ceiling_witness :
    (run_agent_loop envAllToolCalls "PROJ-123" "first_pass" none {}).llm_calls = 15 ∧
    containsStr (run_agent_loop envAllToolCalls "PROJ-123" "first_pass" none {}).result "15" ∧
    containsStr (run_agent_loop envAllToolCalls "PROJ-123" "first_pass" none {}).result "PROJ-123" :=
  agent_loop_stops_at_ceiling envAllToolCalls "PROJ-123" "first_pass" none {}
    (fun _ => rfl)

/-- C3.  If the first chat-gateway response is a final answer, the loop
makes exactly one chat-gateway call, invokes no tool, and returns the
gateway's text (the empty string when none was supplied). -/
theorem single_turn_final_text (env : Env) (issue_key mode : String)
    (pm_comment : Option String) (config : DomainConfig)
    (h : (call_llm_with_tools
            (env.llm (build_agent_prompt issue_key mode pm_comment config))).wants_tool_calls
          = false) :
    (run_agent_loop env issue_key mode pm_comment config).result
        = (env.llm (build_agent_prompt issue_key mode pm_comment config)).content.getD "" ∧
    (run_agent_loop env issue_key mode pm_comment config).llm_calls = 1 ∧
    (run_agent_loop env issue_key mode pm_comment config).tool_invocations = [] := by
  have e : run_agent_loop env issue_key mode pm_comment config
      = run_agent_loop_iter env issue_key (14 + 1)
          (build_agent_prompt issue_key mode pm_comment config) 0 [] := rfl
  rw [e, run_iter_succ]
  simp only [h, Bool.false_eq_true, if_false]
  refine ⟨?_, by simp, by simp⟩
  cases hm : (env.llm (build_agent_prompt issue_key mode pm_comment config)).tool_calls with
  | none =>
      simp only [call_llm_with_tools, hm]
      rw [pyOr_some_empty, pyOr_empty_getD]
  | some l =>
      cases hl : l.isEmpty with
      | true =>
          simp only [call_llm_with_tools, hm, hl, if_true]
          rw [pyOr_some_empty, pyOr_empty_getD]
      | false =>
          exfalso
          simp only [call_llm_with_tools, LLMToolResponse.wants_tool_calls, hm, hl] at h
          simp at h
          simp [h] at hl

/-- A chat-gateway oracle that immediately answers with final text. -/
def envFinalAnswer : Env :=
  { llm := fun _ => { content := some "Done", tool_calls := none },
    call_tool := fun _ _ => Except.ok "ok" }

theorem single_turn_final_text_witness :
    (run_agent_loop envFinalAnswer "PROJ-123" "first_pass" none {}).result = "Done" ∧
    (run_agent_loop envFinalAnswer "PROJ-123" "first_pass" none {}).llm_calls = 1 ∧
    (run_agent_loop envFinalAnswer "PROJ-123" "first_pass" none {}).tool_invocations = [] :=
  single_turn_final_text envFinalAnswer "PROJ-123" "first_pass" none {} rfl

/-- C2.  For every tool request whose invocation raises — in any iteration,
at any reachable loop state — the loop does not abort: it appends the
synthesized tool-result message whose content embeds the failing tool's
name and the exception detail, and (with fuel remaining) continues with
another chat-gateway call.  The second conjunct instantiates this at the
start of a run: a failing request of the first turn leaves its error
result in the final log and the run makes at least two chat-gateway
calls. -/
theorem tool_error_recovered (env : Env) (issue_key : String) (tc : ToolCall) (e : String)
    (herr : env.call_tool tc.name tc.arguments = Except.error e) :
    (∀ (fuel : Nat) (msgs : List Message) (n : Nat) (log : List (String × String)),
        1 ≤ fuel →
        tc ∈ (call_llm_with_tools (env.llm msgs)).tool_calls.getD [] →
        Message.tool tc.id ("Error calling tool '" ++ tc.name ++ "': " ++ e)
          ∈ (run_agent_loop_iter env issue_key (fuel + 1) msgs n log).messages ∧
        n + 2 ≤ (run_agent_loop_iter env issue_key (fuel + 1) msgs n log).llm_calls) ∧
    (∀ (mode : String) (pm_comment : Option String) (config : DomainConfig),
        tc ∈ (call_llm_with_tools
            (env.llm (build_agent_prompt issue_key mode pm_comment config))).tool_calls.getD [] →
        Message.tool tc.id ("Error calling tool '" ++ tc.name ++ "': " ++ e)
          ∈ (run_agent_loop env issue_key mode pm_comment config).messages ∧
        2 ≤ (run_agent_loop env issue_key mode pm_comment config).llm_calls) := by
  have hgen : ∀ (fuel : Nat) (msgs : List Message) (n : Nat) (log : List (String × String)),
      1 ≤ fuel →
      tc ∈ (call_llm_with_tools (env.llm msgs)).tool_calls.getD [] →
      Message.tool tc.id ("Error calling tool '" ++ tc.name ++ "': " ++ e)
        ∈ (run_agent_loop_iter env issue_key (fuel + 1) msgs n log).messages ∧
      n + 2 ≤ (run_agent_loop_iter env issue_key (fuel + 1) msgs n log).llm_calls := by
    intro fuel msgs n log hfuel hmem
    have hw : (call_llm_with_tools (env.llm msgs)).wants_tool_calls = true := by
      cases hrc : (call_llm_with_tools (env.llm msgs)).tool_calls with
      | none => rw [hrc] at hmem; simp at hmem
      | some l =>
          rw [hrc] at hmem
          simp only [Option.getD_some] at hmem
          simp only [LLMToolResponse.wants_tool_calls, hrc]
          cases l with
          | nil => simp at hmem
          | cons a t => simp
    rw [run_iter_succ]
    simp only [hw, if_true]
    constructor
    · apply run_iter_mem
      simp only [exec_tool_calls_eq]
      apply List.mem_append_right
      have hc : Message.tool tc.id ("Error calling tool '" ++ tc.name ++ "': " ++ e)
          = Message.tool tc.id (tool_result_content env tc) := by
        simp [tool_result_content, herr]
      rw [hc]
      exact List.mem_map_of_mem _ hmem
    · have hge := run_iter_calls_ge env issue_key fuel
        (exec_tool_calls env ((call_llm_with_tools (env.llm msgs)).tool_calls.getD [])
          (msgs ++ [assistant_message_to_dict
            (call_llm_with_tools (env.llm msgs)).assistant_message]) log).1
        (n + 1)
        (exec_tool_calls env ((call_llm_with_tools (env.llm msgs)).tool_calls.getD [])
          (msgs ++ [assistant_message_to_dict
            (call_llm_with_tools (env.llm msgs)).assistant_message]) log).2
      omega
  refine ⟨hgen, ?_⟩
  intro mode pm_comment config hmem
  exact hgen 14 (build_agent_prompt issue_key mode pm_comment config) 0 [] (by norm_num) hmem

/-- A chat-gateway oracle that always requests one tool call, over a tool
gateway whose invocation always raises. -/
def envToolError : Env :=
  { llm := fun _ =>
      { content := none,
        tool_calls := some [{ id := "call-1",
                              function := { name := "jira_get_issue",
                                            arguments := "issue" } }] },
    call_tool := fun _ _ => Except.error "not found" }

theorem tool_error_recovered_witness :
    (∀ (fuel : Nat) (msgs : List Message) (n : Nat) (log : List (String × String)),
        1 ≤ fuel →
        ({ id := "call-1", name := "jira_get_issue", arguments := "issue" } : ToolCall)
          ∈ (call_llm_with_tools (envToolError.llm msgs)).tool_calls.getD [] →
        Message.tool "call-1"
            ("Error calling tool '" ++ "jira_get_issue" ++ "': " ++ "not found")
          ∈ (run_agent_loop_iter envToolError "PROJ-123" (fuel + 1) msgs n log).messages ∧
        n + 2 ≤ (run_agent_loop_iter envToolError "PROJ-123" (fuel + 1) msgs n log).llm_calls) ∧
    (∀ (mode : String) (pm_comment : Option String) (config : DomainConfig),
        ({ id := "call-1", name := "jira_get_issue", arguments := "issue" } : ToolCall)
          ∈ (call_llm_with_tools
              (envToolError.llm
                (build_agent_prompt "PROJ-123" mode pm_comment config))).tool_calls.getD [] →
        Message.tool "call-1"
            ("Error calling tool '" ++ "jira_get_issue" ++ "': " ++ "not found")
          ∈ (run_agent_loop envToolError "PROJ-123" mode pm_comment config).messages ∧
        2 ≤ (run_agent_loop envToolError "PROJ-123" mode pm_comment config).llm_calls) :=
  tool_error_recovered envToolError "PROJ-123"
    { id := "call-1", name := "jira_get_issue", arguments := "issue" } "not found" rfl

/-! ### The message-log invariant (C4) -/

theorem toolIdsOk_append (a : List Message) :
    ∀ (b : List Message) (cur : List ToolCallDict),
      toolIdsOk (a ++ b) cur
        = (toolIdsOk a cur && toolIdsOk b (lastAssistantCalls a cur)) := by
  induction a with
  | nil => intro b cur; simp [toolIdsOk, lastAssistantCalls]
  | cons m rest ih =>
      intro b cur
      cases m with
      | system c => simp [toolIdsOk, lastAssistantCalls, ih]
      | user c => simp [toolIdsOk, lastAssistantCalls, ih]
      | assistant c tcs => simp [toolIdsOk, lastAssistantCalls, ih]
      | tool id c => simp [toolIdsOk, lastAssistantCalls, ih, Bool.and_assoc]

theorem lastAssistantCalls_append (a : List Message) :
    ∀ (b : List Message) (cur : List ToolCallDict),
      lastAssistantCalls (a ++ b) cur = lastAssistantCalls b (lastAssistantCalls a cur) := by
  induction a with
  | nil => intro b cur; simp [lastAssistantCalls]
  | cons m rest ih =>
      intro b cur
      cases m with
      | system c => simp [lastAssistantCalls, ih]
      | user c => simp [lastAssistantCalls, ih]
      | assistant c tcs => simp [lastAssistantCalls, ih]
      | tool id c => simp [lastAssistantCalls, ih]

/-- In a duplicate-free list exactly one element equals a member. -/
theorem nodup_filter_length_one {l : List String} (h : l.Nodup) {a : String}
    (ha : a ∈ l) : (l.filter fun x => x == a).length = 1 := by
  induction l with
  | nil => simp at ha
  | cons b t ih =>
      obtain ⟨hbt, hnd⟩ := List.nodup_cons.mp h
      by_cases hba : b = a
      · subst hba
        have ht : t.filter (fun x => x == b) = [] := by
          apply List.filter_eq_nil_iff.mpr
          intro x hx
          simp only [beq_iff_eq]
          intro hxa
          exact hbt (hxa ▸ hx)
        simp [List.filter_cons, ht]
      · have hat : a ∈ t := by
          cases List.mem_cons.mp ha with
          | inl hh => exact absurd hh.symm hba
          | inr hh => exact hh
        have : (b == a) = false := beq_eq_false_iff_ne.mpr hba
        simp [List.filter_cons, this, ih hnd hat]

/-- A block of tool-result messages, each of whose ids matches exactly one
entry of the tool-call list at hand, satisfies the invariant. -/
theorem toolIdsOk_tool_msgs (dicts : List ToolCallDict) :
    ∀ (ms : List Message),
      (∀ m ∈ ms, ∃ i c, m = Message.tool i c ∧ countMatches dicts i = 1) →
      toolIdsOk ms dicts = true := by
  intro ms
  induction ms with
  | nil => intro _; simp [toolIdsOk]
  | cons m rest ih =>
      intro hcnt
      obtain ⟨i, c, rfl, hone⟩ := hcnt m (List.mem_cons_self _ _)
      simp only [toolIdsOk]
      refine Bool.and_eq_true_iff.mpr
        ⟨?_, ih fun x hx => hcnt x (List.mem_cons_of_mem _ hx)⟩
      simp [hone]

/-- Counting by id through the dict rebuild is counting raw ids. -/
theorem countMatches_rebuild (l : List RawToolCall) (a : String) :
    countMatches
      (l.map fun tc =>
        ({ id := tc.id, type := "function", function_name := tc.function.name,
           function_arguments := tc.function.arguments } : ToolCallDict)) a
      = ((l.map RawToolCall.id).filter fun x => x == a).length := by
  simp only [countMatches, List.filter_map, List.length_map]
  rfl


/-- The loop preserves the message-log invariant, given that the chat
gateway never repeats a tool-call id within one turn. -/
theorem run_iter_ids_ok (env : Env) (ik : String)
    (hids : ∀ msgs, (((env.llm msgs).tool_calls.getD []).map RawToolCall.id).Nodup) :
    ∀ (fuel : Nat) (msgs : List Message) (n : Nat) (log : List (String × String))
      (cur : List ToolCallDict), toolIdsOk msgs cur = true →
      toolIdsOk (run_agent_loop_iter env ik fuel msgs n log).messages cur = true := by
  intro fuel
  induction fuel with
  | zero => intro msgs n log cur hok; exact hok
  | succ fuel ih =>
      intro msgs n log cur hok
      rw [run_iter_succ]
      cases hw : (call_llm_with_tools (env.llm msgs)).wants_tool_calls with
      | false => simp only [hw, Bool.false_eq_true, if_false]; exact hok
      | true =>
          simp only [hw, if_true]
          cases hm : (env.llm msgs).tool_calls with
          | none =>
              exfalso
              simp [call_llm_with_tools, hm, LLMToolResponse.wants_tool_calls] at hw
          | some l =>
              cases hl : l.isEmpty with
              | true =>
                  exfalso
                  simp [call_llm_with_tools, hm, hl,
                    LLMToolResponse.wants_tool_calls] at hw
              | false =>
                  apply ih
                  simp only [call_llm_with_tools, hm, hl, Bool.false_eq_true, if_false,
                    exec_tool_calls_eq, Option.getD_some]
                  rw [toolIdsOk_append, toolIdsOk_append]
                  have hdict : assistant_message_to_dict (env.llm msgs)
                      = Message.assistant (pyOr (env.llm msgs).content "")
                          (some (l.map fun tc =>
                            ({ id := tc.id, type := "function",
                               function_name := tc.function.name,
                               function_arguments := tc.function.arguments } : ToolCallDict))) := by
                    simp [assistant_message_to_dict, hm, hl]
                  rw [hdict]
                  simp only [toolIdsOk, lastAssistantCalls_append]
                  have hnd : (l.map RawToolCall.id).Nodup := by
                    have := hids msgs
                    rw [hm] at this
                    simpa using this
                  have hblock : toolIdsOk
                      (l.map fun tc => Message.tool tc.id
                        (tool_result_content env
                          { id := tc.id, name := tc.function.name,
                            arguments := tc.function.arguments }))
                      (l.map fun tc =>
                        ({ id := tc.id, type := "function",
                           function_name := tc.function.name,
                           function_arguments := tc.function.arguments } : ToolCallDict))
                      = true := by
                    apply toolIdsOk_tool_msgs
                    intro m hmm
                    obtain ⟨rtc, hrtc, rfl⟩ := List.mem_map.mp hmm
                    refine ⟨rtc.id, _, rfl, ?_⟩
                    rw [countMatches_rebuild]
                    exact nodup_filter_length_one hnd (List.mem_map_of_mem _ hrtc)
                  simp [hok, lastAssistantCalls]
                  exact hblock

/-- C4.  Within one assistant turn the loop invokes the requested tools
strictly in the order received — no reordering, deduplication or parallel
dispatch — appending exactly one tool-result per request, with the
request's id, before the next request runs; consequently the final message
log satisfies the invariant that every tool-result's `tool_call_id`
matches exactly one `tool_calls[i].id` of the immediately preceding
assistant message (turn ids being unique, per the gateway's data model). -/
theorem tool_call_order_invariant (env : Env) (issue_key mode : String)
    (pm_comment : Option String) (config : DomainConfig)
    (hids : ∀ msgs, (((env.llm msgs).tool_calls.getD []).map RawToolCall.id).Nodup) :
    (∀ (calls : List ToolCall) (messages : List Message) (log : List (String × String)),
        exec_tool_calls env calls messages log
          = (messages ++ calls.map (fun tc => Message.tool tc.id (tool_result_content env tc)),
             log ++ calls.map (fun tc => (tc.name, tc.arguments)))) ∧
    toolIdsOk (run_agent_loop env issue_key mode pm_comment config).messages [] = true := by
  refine ⟨fun calls messages log => exec_tool_calls_eq env calls messages log, ?_⟩
  apply run_iter_ids_ok env issue_key hids
  cases hmode : (mode == "first_pass") with
  | true => simp [build_agent_prompt, hmode, toolIdsOk]
  | false => simp [build_agent_prompt, hmode, toolIdsOk]

theorem tool_call_order_invariant_witness :
    (∀ (calls : List ToolCall) (messages : List Message) (log : List (String × String)),
        exec_tool_calls envAllToolCalls calls messages log
          = (messages ++ calls.map
               (fun tc => Message.tool tc.id (tool_result_content envAllToolCalls tc)),
             log ++ calls.map (fun tc => (tc.name, tc.arguments)))) ∧
    toolIdsOk (run_agent_loop envAllToolCalls "PROJ-123" "first_pass" none {}).messages []
      = true :=
  tool_call_order_invariant envAllToolCalls "PROJ-123" "first_pass" none {}
    (fun msgs => by simp [envAllToolCalls])

/-! ### Prompt-builder claims (C5, C6, C9) -/

theorem pyOr_none (d : String) : pyOr none d = d := rfl

/-- `build_agent_prompt` in `pm_feedback` mode, in closed form. -/
theorem build_feedback_eq (issue_key : String) (pm_comment : Option String)
    (config : DomainConfig) :
    build_agent_prompt issue_key "pm_feedback" pm_comment config
      = [Message.system (AGENT_SYSTEM_FEEDBACK ++ domain_context config),
         Message.user ("The PM has replied to the refinement of **" ++ issue_key ++ "**.\n\n"
           ++ "**PM's comment:**\n" ++ pyOr pm_comment "(no comment provided)" ++ "\n\n"
           ++ "Start by reading the issue with `jira_get_issue` to see the "
           ++ "current state, then incorporate the PM's feedback.")] := rfl

/-- C5.  In `pm_feedback` mode the supplied PM comment appears verbatim in
the user message of the initial message list; with no comment supplied the
user message carries the fixed placeholder `(no comment provided)`. -/
theorem pm_comment_in_user_message (issue_key : String) (config : DomainConfig) :
    (∀ c : String, ∃ s pre post,
        build_agent_prompt issue_key "pm_feedback" (some c) config
          = [Message.system s, Message.user (pre ++ c ++ post)]) ∧
    (∃ s pre post,
        build_agent_prompt issue_key "pm_feedback" none config
          = [Message.system s, Message.user (pre ++ "(no comment provided)" ++ post)]) := by
  constructor
  · intro c
    rw [build_feedback_eq]
    by_cases hc : c = ""
    · subst hc
      refine ⟨AGENT_SYSTEM_FEEDBACK ++ domain_context config,
        "The PM has replied to the refinement of **" ++ issue_key ++ "**.\n\n"
          ++ "**PM's comment:**\n" ++ pyOr (some "") "(no comment provided)" ++ "\n\n"
          ++ "Start by reading the issue with `jira_get_issue` to see the "
          ++ "current state, then incorporate the PM's feedback.", "", ?_⟩
      rw [String.append_empty, String.append_empty]
    · have hp : pyOr (some c) "(no comment provided)" = c := by
        simp only [pyOr]
        split
        · next h => exact absurd ((String.isEmpty_iff c).mp h) hc
        · rfl
      refine ⟨AGENT_SYSTEM_FEEDBACK ++ domain_context config,
        "The PM has replied to the refinement of **" ++ issue_key ++ "**.\n\n"
          ++ "**PM's comment:**\n",
        "\n\n" ++ "Start by reading the issue with `jira_get_issue` to see the "
          ++ "current state, then incorporate the PM's feedback.", ?_⟩
      rw [hp]
      simp only [String.append_assoc]
  · rw [build_feedback_eq]
    refine ⟨AGENT_SYSTEM_FEEDBACK ++ domain_context config,
      "The PM has replied to the refinement of **" ++ issue_key ++ "**.\n\n"
        ++ "**PM's comment:**\n",
      "\n\n" ++ "Start by reading the issue with `jira_get_issue` to see the "
        ++ "current state, then incorporate the PM's feedback.", ?_⟩
    rw [pyOr_none]
    simp only [String.append_assoc]

/-- C6.  `_assistant_message_to_dict` keeps every tool call's id and its
argument payload byte for byte (the payload string is carried through
unparsed), and the content defaults to the empty string when the gateway
supplied none. -/
theorem assistant_message_preserved (m : AssistantMessage) (l : List RawToolCall)
    (hl : m.tool_calls = some l) (hne : l ≠ []) :
    ∃ out : List ToolCallDict,
      assistant_message_to_dict m = Message.assistant (pyOr m.content "") (some out) ∧
      (m.content = none → assistant_message_to_dict m = Message.assistant "" (some out)) ∧
      out.length = l.length ∧
      ∀ (i : Nat) (hi : i < out.length) (hj : i < l.length),
        out[i].id = l[i].id ∧
        out[i].function_arguments = l[i].function.arguments := by
  have hemp : l.isEmpty = false := by
    cases l with
    | nil => exact absurd rfl hne
    | cons a t => rfl
  refine ⟨l.map (fun tc =>
      { id := tc.id, type := "function", function_name := tc.function.name,
        function_arguments := tc.function.arguments }), ?_, ?_, ?_, ?_⟩
  · simp [assistant_message_to_dict, hl, hemp]
  · intro hc
    simp [assistant_message_to_dict, hl, hemp, hc, pyOr]
  · simp
  · intro i hi hj
    simp [List.getElem_map]

/-- The raw assistant turn used to witness the preservation claim. -/
def rawTurn : AssistantMessage :=
  { content := none,
    tool_calls := some [{ id := "id-1",
                          function := { name := "jira_search",
                                        arguments := "raw-argument-bytes" } }] }

theorem assistant_message_preserved_witness :
    ∃ out : List ToolCallDict,
      assistant_message_to_dict rawTurn
          = Message.assistant (pyOr rawTurn.content "") (some out) ∧
      (rawTurn.content = none → assistant_message_to_dict rawTurn
          = Message.assistant "" (some out)) ∧
      out.length = ([{ id := "id-1",
                       function := { name := "jira_search",
                                     arguments := "raw-argument-bytes" } }] : List RawToolCall).length ∧
      ∀ (i : Nat) (hi : i < out.length)
        (hj : i < ([{ id := "id-1",
                      function := { name := "jira_search",
                                    arguments := "raw-argument-bytes" } }] : List RawToolCall).length),
        out[i].id = ([{ id := "id-1",
                        function := { name := "jira_search",
                                      arguments := "raw-argument-bytes" } }] : List RawToolCall)[i].id ∧
        out[i].function_arguments
          = ([{ id := "id-1",
                function := { name := "jira_search",
                              arguments := "raw-argument-bytes" } }] : List RawToolCall)[i].function.arguments :=
  assistant_message_preserved rawTurn _ rfl (by simp)

/-- C9.  The prompt builder always returns exactly two messages, a system
message followed by a user message (it is a total function of its four
arguments, hence pure, deterministic and non-raising in the embedding). -/
theorem build_agent_prompt_shape (issue_key mode : String)
    (pm_comment : Option String) (config : DomainConfig) :
    ∃ s u, build_agent_prompt issue_key mode pm_comment config
        = [Message.system s, Message.user u] := by
  cases hmode : (mode == "first_pass") with
  | true =>
      refine ⟨AGENT_SYSTEM_FIRST_PASS ++ domain_context config,
        "Please refine Jira issue **" ++ issue_key ++ "**.\n\n"
          ++ "Start by reading the issue with the `jira_get_issue` tool, "
          ++ "then follow the workflow described in your instructions.", ?_⟩
      simp [build_agent_prompt, hmode]
  | false =>
      refine ⟨AGENT_SYSTEM_FEEDBACK ++ domain_context config,
        "The PM has replied to the refinement of **" ++ issue_key ++ "**.\n\n"
          ++ "**PM's comment:**\n" ++ pyOr pm_comment "(no comment provided)" ++ "\n\n"
          ++ "Start by reading the issue with `jira_get_issue` to see the "
          ++ "current state, then incorporate the PM's feedback.", ?_⟩
      simp [build_agent_prompt, hmode]

/-! ### Domain-context rendering (C7) -/

theorem ite_not_bool {α : Type} (b : Bool) (x y : α) :
    (if !b then x else y) = if b then y else x := by
  cases b <;> rfl

/-- `_domain_context` in factored form: one string per section, appended in
order; each repo-metadata section contributes the empty string exactly when
its config field is empty, while the ticket-structure, personas, platforms,
standards and acceptance-criteria sections are always present (with fixed
placeholder text when their fields are empty). -/
theorem domain_context_eq (config : DomainConfig) :
    domain_context config
      = "\n\n## Project context: " ++ config.project_name ++ "\n"
        ++ (if config.repo_url.isEmpty then ""
            else "\n### Repository: " ++ config.repo_url ++ "\n")
        ++ (if config.tech_stack.isEmpty then ""
            else "\n### Tech stack:\n"
              ++ String.intercalate "\n" (config.tech_stack.map fun t => "  - " ++ t)
              ++ "\n")
        ++ (if config.architecture_notes.isEmpty then ""
            else "\n### Architecture:\n" ++ config.architecture_notes ++ "\n")
        ++ (if config.key_modules.isEmpty then ""
            else "\n### Key modules:\n"
              ++ String.intercalate "\n" (config.key_modules.map fun m =>
                   "  - **" ++ m.name ++ "** (`" ++ m.path ++ "`): " ++ m.description)
              ++ "\n")
        ++ "\n### Required ticket structure (use these as markdown headings):\n"
        ++ String.intercalate "\n" (config.ticket_structure.map fun s => "  - " ++ s)
        ++ "\n\n### Known user personas:\n"
        ++ (if (String.intercalate "\n" (config.user_personas.map fun p =>
                  "  - **" ++ p.name ++ "**: " ++ p.description)).isEmpty
            then "  (none defined)"
            else String.intercalate "\n" (config.user_personas.map fun p =>
                  "  - **" ++ p.name ++ "**: " ++ p.description))
        ++ "\n\n### Target platforms: "
        ++ (if config.platforms.isEmpty then "N/A"
            else String.intercalate ", " config.platforms)
        ++ "\n\n### Non-functional standards:\n"
        ++ (if (String.intercalate "\n" (config.standards.map fun kv =>
                  "  - **" ++ kv.1 ++ "**: " ++ kv.2)).isEmpty
            then "  (none defined)"
            else String.intercalate "\n" (config.standards.map fun kv =>
                  "  - **" ++ kv.1 ++ "**: " ++ kv.2))
        ++ "\n\n### Acceptance criteria style: "
        ++ config.acceptance_criteria_style ++ "\n" := by
  cases h1 : config.repo_url.isEmpty <;>
    cases h2 : config.tech_stack.isEmpty <;>
      cases h3 : config.architecture_notes.isEmpty <;>
        cases h4 : config.key_modules.isEmpty <;>
          simp only [domain_context, h1, h2, h3, h4, ite_not_bool, Bool.not_false,
            Bool.not_true, eq_self_iff_true, if_true, Bool.false_eq_true, if_false,
            String.append_assoc, String.append_empty, String.empty_append]

/-- A configuration whose optional fields are all empty. -/
def cfgMinimal : DomainConfig :=
  { project_name := "P", ticket_structure := ["Background"] }

set_option maxRecDepth 8000 in
/-- C7 counterexample.  The personas section is not omitted although its
underlying config field is empty: the heading (followed by the fixed
placeholder) still appears in the rendered context. -/
theorem personas_section_not_omitted :
    cfgMinimal.user_personas = [] ∧
    containsStr (domain_context cfgMinimal) "### Known user personas:" :=
  ⟨rfl,
   ⟨"\n\n## Project context: P\n"
      ++ "\n### Required ticket structure (use these as markdown headings):\n  - Background\n\n",
    "\n  (none defined)\n\n### Target platforms: N/A\n\n### Non-functional standards:\n"
      ++ "  (none defined)\n\n### Acceptance criteria style: bullet\n",
    by decide⟩⟩

/-- C7 (amended).  The rendered context consists of the appended sections
in order; the repo-metadata sections (repository URL, tech stack,
architecture notes, key modules) are omitted entirely — contribute nothing —
when their config field is empty, while the personas, platforms and
standards sections are always rendered, degrading to fixed placeholder
text when their fields are empty. -/
theorem domain_context_sections (config : DomainConfig) :
    domain_context config
      = "\n\n## Project context: " ++ config.project_name ++ "\n"
        ++ (if config.repo_url.isEmpty then ""
            else "\n### Repository: " ++ config.repo_url ++ "\n")
        ++ (if config.tech_stack.isEmpty then ""
            else "\n### Tech stack:\n"
              ++ String.intercalate "\n" (config.tech_stack.map fun t => "  - " ++ t)
              ++ "\n")
        ++ (if config.architecture_notes.isEmpty then ""
            else "\n### Architecture:\n" ++ config.architecture_notes ++ "\n")
        ++ (if config.key_modules.isEmpty then ""
            else "\n### Key modules:\n"
              ++ String.intercalate "\n" (config.key_modules.map fun m =>
                   "  - **" ++ m.name ++ "** (`" ++ m.path ++ "`): " ++ m.description)
              ++ "\n")
        ++ "\n### Required ticket structure (use these as markdown headings):\n"
        ++ String.intercalate "\n" (config.ticket_structure.map fun s => "  - " ++ s)
        ++ "\n\n### Known user personas:\n"
        ++ (if (String.intercalate "\n" (config.user_personas.map fun p =>
                  "  - **" ++ p.name ++ "**: " ++ p.description)).isEmpty
            then "  (none defined)"
            else String.intercalate "\n" (config.user_personas.map fun p =>
                  "  - **" ++ p.name ++ "**: " ++ p.description))
        ++ "\n\n### Target platforms: "
        ++ (if config.platforms.isEmpty then "N/A"
            else String.intercalate ", " config.platforms)
        ++ "\n\n### Non-functional standards:\n"
        ++ (if (String.intercalate "\n" (config.standards.map fun kv =>
                  "  - **" ++ kv.1 ++ "**: " ++ kv.2)).isEmpty
            then "  (none defined)"
            else String.intercalate "\n" (config.standards.map fun kv =>
                  "  - **" ++ kv.1 ++ "**: " ++ kv.2))
        ++ "\n\n### Acceptance criteria style: "
        ++ config.acceptance_criteria_style ++ "\n" :=
  domain_context_eq config

/-! ### Tool-catalog translation (C8) -/

theorem foldl_append_map {α β : Type} (f : α → β) (l : List α) :
    ∀ acc : List β, l.foldl (fun a x => a ++ [f x]) acc = acc ++ l.map f := by
  induction l with
  | nil => intro acc; simp
  | cons x t ih => intro acc; simp [ih]

/-- C8.  The cached tool catalog translates to the OpenAI function-calling
schema one entry per tool, in catalog order, each entry
`{type: "function", function: {name, description, parameters}}` with
`parameters` the tool's `inputSchema` when that object is non-empty and
the default `{type: "object", properties: {}}` otherwise. -/
theorem tools_translate_openai (tools : List Tool) :
    get_tools_as_openai_functions tools
      = tools.map (fun tool =>
          { type := "function",
            function :=
              { name := tool.name,
                description := tool.description.getD "",
                parameters :=
                  if tool.inputSchema.isEmpty
                  then JValue.obj [("type", JValue.str "object"), ("properties", JValue.obj [])]
                  else JValue.obj tool.inputSchema } }) ∧
    (get_tools_as_openai_functions tools).length = tools.length := by
  have he : get_tools_as_openai_functions tools
      = tools.map (fun tool =>
          { type := "function",
            function :=
              { name := tool.name,
                description := pyOr tool.description "",
                parameters :=
                  if !tool.inputSchema.isEmpty then JValue.obj tool.inputSchema
                  else default_parameters } }) := by
    rw [get_tools_as_openai_functions, foldl_append_map]
    rw [List.nil_append]
  constructor
  · rw [he]
    congr 1
    funext tool
    cases hb : tool.inputSchema.isEmpty <;>
      simp [hb, pyOr_empty_getD, default_parameters]
  · rw [he, List.length_map]

/-! ### MCP client behaviour (C10) -/

/-- C10.  `call_tool` raises the fixed not-connected message when no
session is established (no operation exists to invoke in that state);
when connected it raises a message embedding the tool name and the
extracted error text exactly when the gateway flags the result as an
error, and otherwise returns the newline-joined text parts of the
result. -/
theorem call_tool_behaviour (client : MCPJiraClient) (name arguments : String) :
    (client.session = none →
        client.call_tool name arguments
          = Except.error "MCP client not connected. Call start() first.") ∧
    (∀ s : MCPSession, client.session = some s →
        ((s.call_tool name arguments).isError = true →
            client.call_tool name arguments
              = Except.error ("MCP tool '" ++ name ++ "' failed: "
                  ++ String.intercalate "\n"
                       ((s.call_tool name arguments).content.filterMap fun c =>
                         match c with
                         | MCPContent.text t => some t
                         | MCPContent.other => none))) ∧
        ((s.call_tool name arguments).isError = false →
            client.call_tool name arguments
              = Except.ok (String.intercalate "\n"
                  ((s.call_tool name arguments).content.filterMap fun c =>
                    match c with
                    | MCPContent.text t => some t
                    | MCPContent.other => none)))) := by
  refine ⟨fun h => by simp [MCPJiraClient.call_tool, h], fun s hs => ⟨?_, ?_⟩⟩
  · intro he
    simp [MCPJiraClient.call_tool, hs, he, extract_text]
  · intro he
    simp [MCPJiraClient.call_tool, hs, he, extract_text]

/-- A session whose tool result carries the gateway error flag. -/
def sessionError : MCPSession :=
  ⟨fun _ _ => { content := [MCPContent.text "boom"], isError := true }⟩

/-- A session answering with two text parts and a non-text part. -/
def sessionOk : MCPSession :=
  ⟨fun _ _ => { content := [MCPContent.text "line1", MCPContent.other,
                            MCPContent.text "line2"], isError := false }⟩

theorem call_tool_behaviour_witness :
    (MCPJiraClient.call_tool { session := none } "jira_get_issue" "args"
        = Except.error "MCP client not connected. Call start() first.") ∧
    (MCPJiraClient.call_tool { session := some sessionError } "jira_get_issue" "args"
        = Except.error ("MCP tool '" ++ "jira_get_issue" ++ "' failed: "
            ++ String.intercalate "\n"
                 ((sessionError.call_tool "jira_get_issue" "args").content.filterMap fun c =>
                   match c with
                   | MCPContent.text t => some t
                   | MCPContent.other => none))) ∧
    (MCPJiraClient.call_tool { session := some sessionOk } "jira_get_issue" "args"
        = Except.ok (String.intercalate "\n"
            ((sessionOk.call_tool "jira_get_issue" "args").content.filterMap fun c =>
              match c with
              | MCPContent.text t => some t
              | MCPContent.other => none))) :=
  ⟨(call_tool_behaviour { session := none } "jira_get_issue" "args").1 rfl,
   ((call_tool_behaviour { session := some sessionError } "jira_get_issue" "args").2
      sessionError rfl).1 rfl,
   ((call_tool_behaviour { session := some sessionOk } "jira_get_issue" "args").2
      sessionOk rfl).2 rfl⟩

end RefinementAgent
